import Mathlib

/-!
# Verification of the `gcop-rs` Python wrapper

A shallow embedding of `src/python/src/gcop_rs/__init__.py`, the bootstrap
installer that resolves the host platform to a release-asset name, caches a
downloaded binary, and dispatches to it.  Pure string logic is translated to
Lean functions; the filesystem, the network and the child process are modelled
explicitly and threaded through the stateful functions.
-/

namespace GcopRs

/-! ## String helpers modelling Python's `str.lower` and `str.strip`

Python's `.lower()` is modelled on its ASCII fragment (the only fragment the
program exercises: platform and machine names are ASCII), and `.strip()` as
removal of leading and trailing whitespace characters. -/

/-- ASCII lowering of a single character, as Python's `str.lower` acts on
ASCII input: `A`..`Z` map to `a`..`z`, everything else is unchanged. -/
def pyLowerChar (c : Char) : Char :=
  if 65 ≤ c.toNat ∧ c.toNat ≤ 90 then Char.ofNat (c.toNat + 32) else c

/-- Embedding of Python's `str.lower` (ASCII fragment). -/
def pyLower (s : String) : String := ⟨s.data.map pyLowerChar⟩

/-- Python whitespace characters relevant to `str.strip`. -/
def isPySpace (c : Char) : Bool :=
  c == ' ' || c == '\t' || c == '\n' || c == '\r' || c == '\x0b' || c == '\x0c'

/-- Embedding of Python's `str.strip`: drop leading and trailing whitespace. -/
def pyStrip (s : String) : String :=
  ⟨((s.data.dropWhile isPySpace).reverse.dropWhile isPySpace).reverse⟩

/-! ## Host environment -/

/-- A filesystem path, represented by its components. -/
abbrev Path := List String

/-- The ambient host environment the wrapper consults: `platform.system()`,
`platform.machine()`, `os.environ.get`, and `Path.home()`.  Environment
variables holding paths are modelled directly as paths. -/
structure Sys where
  system : String
  machine : String
  env : String → Option Path
  home : Path

/-! ## Module constants (`__init__.py` lines 15–17) -/

/-- `__version__ = "0.4.2"` -/
def __version__ : String := "0.4.2"

/-- `GITHUB_RELEASE_URL` -/
def GITHUB_RELEASE_URL : String := "https://github.com/AptS-1547/gcop-rs/releases/download"

/-! ## Platform Resolver: `get_binary_name` (lines 20–49) -/

/-- Embedding of `get_binary_name`.  The source lowers `platform.system()` and
`platform.machine()`, normalizes the architecture (raising
`RuntimeError("Unsupported architecture: ...")` otherwise), then maps the OS
to a platform suffix and executable filename (raising
`RuntimeError("Unsupported operating system: ...")` otherwise).  A raised
`RuntimeError` is modelled as `Except.error` carrying the message. -/
def get_binary_name (system machine : String) : Except String (String × String) :=
  let system := pyLower system
  let machine := pyLower machine
  match (if machine = "x86_64" ∨ machine = "amd64" then some "amd64"
         else if machine = "arm64" ∨ machine = "aarch64" then some "arm64"
         else none) with
  | none => .error ("Unsupported architecture: " ++ machine)
  | some arch =>
    if system = "darwin" then
      .ok ("macos-" ++ arch, "gcop-rs")
    else if system = "linux" then
      .ok ("linux-" ++ arch, "gcop-rs")
    else if system = "windows" then
      .ok ((if arch = "arm64" then "windows-aarch64.exe" else "windows-amd64.exe"),
           "gcop-rs.exe")
    else
      .error ("Unsupported operating system: " ++ system)

/-! ## Cache Locator: `get_binary_path` (lines 52–62) -/

/-- Embedding of `get_binary_path`.  Chooses the per-OS cache root — note the
source compares `platform.system()` against the capitalized `"Windows"` and
`"Darwin"` here, unlike `get_binary_name` — and appends `gcop-rs/bin`.
`os.environ.get(var, default)` is `(sys.env var).getD default`.  The source
body only reads the environment; it performs no filesystem operation. -/
def get_binary_path (sys : Sys) : Path :=
  let cache_dir : Path :=
    if sys.system = "Windows" then
      (sys.env "LOCALAPPDATA").getD (sys.home ++ ["AppData", "Local"])
    else if sys.system = "Darwin" then
      sys.home ++ ["Library", "Caches"]
    else
      (sys.env "XDG_CACHE_HOME").getD (sys.home ++ [".cache"])
  cache_dir ++ ["gcop-rs", "bin"]

/-! ## Filesystem model

Files carry text content; permission bits (`st_mode`) are tracked separately;
directories are a set of paths.  Association lists record the latest write
first. -/

/-- First-match association-list lookup on paths. -/
def lookupPath {β : Type} : List (Path × β) → Path → Option β
  | [], _ => none
  | (q, c) :: rest, p => if q = p then some c else lookupPath rest p

/-- The filesystem state: existing directories, file contents, file modes. -/
structure FS where
  dirs : List Path
  files : List (Path × String)
  modes : List (Path × Nat)

/-- `path.read_text()` — `none` when the file does not exist. -/
def FS.readText (fs : FS) (p : Path) : Option String := lookupPath fs.files p

/-- `path.exists()` for files. -/
def FS.fileExists (fs : FS) (p : Path) : Bool := (fs.readText p).isSome

/-- `path.write_text(s)` / `urlretrieve` target write: create or overwrite. -/
def FS.writeText (fs : FS) (p : Path) (s : String) : FS :=
  { fs with files := (p, s) :: fs.files }

/-- `path.stat().st_mode` (0 for a fresh file created with no recorded mode). -/
def FS.statMode (fs : FS) (p : Path) : Nat := (lookupPath fs.modes p).getD 0

/-- `path.chmod(m)`. -/
def FS.chmod (fs : FS) (p : Path) (m : Nat) : FS :=
  { fs with modes := (p, m) :: fs.modes }

/-- Does a directory exist? -/
def FS.dirExists (fs : FS) (p : Path) : Bool := decide (p ∈ fs.dirs)

/-- Insert a directory if absent. -/
def insertDir (ds : List Path) (p : Path) : List Path :=
  if p ∈ ds then ds else p :: ds

/-- `path.mkdir(parents=True, exist_ok=True)`: create the directory and every
ancestor, succeeding silently when they already exist. -/
def FS.mkdirP (fs : FS) (p : Path) : FS :=
  { fs with dirs := p.inits.foldl insertDir fs.dirs }

/-! ## Network and Fetcher: `download_binary` (lines 65–97) -/

/-- Outcome of `urllib.request.urlretrieve` on a URL: the retrieved content, a
raised ordinary exception (its message), or a raised `KeyboardInterrupt`. -/
inductive NetResult where
  | ok (content : String)
  | err (cause : String)
  | interrupt

/-- Return state of `download_binary`: the binary path, a raised ordinary
exception (`RuntimeError` message), or an uncaught `KeyboardInterrupt` —
the source's `except Exception` around `urlretrieve` does not catch
`KeyboardInterrupt`, which therefore propagates. -/
inductive DlRet where
  | ok (p : Path)
  | error (msg : String)
  | interrupted

/-- Result of running `download_binary`: its return/raise status, the
filesystem afterwards, and the URLs for which a network transfer was
attempted, in order. -/
structure DlResult where
  ret : DlRet
  fs : FS
  transfers : List String

/-- `stat.S_IXUSR` -/
def S_IXUSR : Nat := 64
/-- `stat.S_IXGRP` -/
def S_IXGRP : Nat := 8
/-- `stat.S_IXOTH` -/
def S_IXOTH : Nat := 1

/-- The asset URL interpolated at line 81 of the source:
`f"{GITHUB_RELEASE_URL}/v{__version__}/gcop-rs-v{__version__}-{platform_str}"`. -/
def assetUrl (platform_str : String) : String :=
  GITHUB_RELEASE_URL ++ "/v" ++ __version__ ++ "/gcop-rs-v" ++ __version__ ++ "-" ++ platform_str

/-- The cache-check condition of `download_binary` lines 72–75: both files
exist and the stripped stored version equals `__version__`.  The `&&`
short-circuit mirrors the source's nested `if` statements. -/
def cache_hit (fs : FS) (binary_path version_file : Path) : Bool :=
  fs.fileExists binary_path && fs.fileExists version_file &&
    (pyStrip ((fs.readText version_file).getD "") == __version__)

/-- Embedding of `download_binary`, threading the filesystem and recording
attempted transfers.  `net` is the ambient network: the behaviour of
`urlretrieve` at each URL. -/
def download_binary (sys : Sys) (net : String → NetResult) (fs : FS) : DlResult :=
  match get_binary_name sys.system sys.machine with
  | .error msg => ⟨.error msg, fs, []⟩
  | .ok (platform_str, binary_name) =>
    let bin_dir := get_binary_path sys
    let fs := fs.mkdirP bin_dir
    let binary_path := bin_dir ++ [binary_name]
    let version_file := bin_dir ++ ["version"]
    if cache_hit fs binary_path version_file then
      ⟨.ok binary_path, fs, []⟩
    else
      let url := assetUrl platform_str
      match net url with
      | .interrupt => ⟨.interrupted, fs, [url]⟩
      | .err cause =>
          ⟨.error ("Failed to download binary from " ++ url ++ ": " ++ cause), fs, [url]⟩
      | .ok content =>
          let fs := fs.writeText binary_path content
          let fs := if sys.system ≠ "Windows" then
                      fs.chmod binary_path
                        (fs.statMode binary_path ||| (S_IXUSR ||| S_IXGRP ||| S_IXOTH))
                    else fs
          let fs := fs.writeText version_file __version__
          ⟨.ok binary_path, fs, [url]⟩

/-! ## Dispatcher: `main` (lines 100–113) -/

/-- Outcome of `subprocess.run`: the child exited with a code, or the run was
interrupted by the operator (`KeyboardInterrupt`). -/
inductive RunOutcome where
  | exited (code : Int)
  | keyboardInterrupt

/-- Outcome of `main`: a returned exit code, or an exception escaping `main`
uncaught (a `KeyboardInterrupt` raised outside the child run, which neither
`except` clause catches). -/
inductive MainOutcome where
  | ret (code : Int)
  | uncaughtInterrupt
deriving DecidableEq

/-- Result of `main`: its outcome, the child invocations performed
(binary path and argument list), and the lines printed to `stderr` by `main`
itself. -/
structure MainResult where
  outcome : MainOutcome
  invocations : List (Path × List String)
  stderr : List String
deriving DecidableEq

/-- Embedding of `main`.  `argv` is the wrapper's own `sys.argv` (the
invocation name first); `run` is the ambient child-process behaviour.  The
first `try/except Exception` catches only the `RuntimeError`s of
`download_binary`; the second `try/except KeyboardInterrupt` wraps only the
`subprocess.run` call and maps an interrupt to exit code 130. -/
def main (sys : Sys) (net : String → NetResult) (fs : FS) (argv : List String)
    (run : Path → List String → RunOutcome) : MainResult :=
  match (download_binary sys net fs).ret with
  | .error msg => ⟨.ret 1, [], ["Error: " ++ msg]⟩
  | .interrupted => ⟨.uncaughtInterrupt, [], []⟩
  | .ok binary_path =>
    match run binary_path (argv.drop 1) with
    | .exited code => ⟨.ret code, [(binary_path, argv.drop 1)], []⟩
    | .keyboardInterrupt => ⟨.ret 130, [(binary_path, argv.drop 1)], []⟩

/-- The filesystem-passing reading of `get_binary_path`: the source body
consists only of environment reads and path arithmetic, so its effect on the
filesystem state is the identity.  This definition makes that explicit so
that statements about side effects of the Cache Locator can be expressed. -/
def get_binary_path_st (sys : Sys) (fs : FS) : Path × FS :=
  (get_binary_path sys, fs)

/-! ## Basic filesystem lemmas -/

@[simp]
theorem FS.files_mkdirP (fs : FS) (p : Path) : (fs.mkdirP p).files = fs.files := rfl

@[simp]
theorem FS.readText_mkdirP (fs : FS) (p q : Path) :
    (fs.mkdirP p).readText q = fs.readText q := rfl

@[simp]
theorem FS.fileExists_mkdirP (fs : FS) (p q : Path) :
    (fs.mkdirP p).fileExists q = fs.fileExists q := rfl

@[simp]
theorem FS.modes_mkdirP (fs : FS) (p : Path) : (fs.mkdirP p).modes = fs.modes := rfl

@[simp]
theorem FS.statMode_mkdirP (fs : FS) (p q : Path) :
    (fs.mkdirP p).statMode q = fs.statMode q := rfl

@[simp]
theorem FS.readText_writeText_self (fs : FS) (p : Path) (s : String) :
    (fs.writeText p s).readText p = some s := by
  simp [FS.writeText, FS.readText, lookupPath]

theorem FS.readText_writeText_ne (fs : FS) {p q : Path} (s : String) (h : p ≠ q) :
    (fs.writeText p s).readText q = fs.readText q := by
  simp [FS.writeText, FS.readText, lookupPath, h]

@[simp]
theorem FS.readText_chmod (fs : FS) (p : Path) (m : Nat) (q : Path) :
    (fs.chmod p m).readText q = fs.readText q := rfl

@[simp]
theorem FS.fileExists_chmod (fs : FS) (p : Path) (m : Nat) (q : Path) :
    (fs.chmod p m).fileExists q = fs.fileExists q := rfl

@[simp]
theorem FS.statMode_writeText (fs : FS) (p : Path) (s : String) (q : Path) :
    (fs.writeText p s).statMode q = fs.statMode q := rfl

@[simp]
theorem FS.modes_writeText (fs : FS) (p : Path) (s : String) :
    (fs.writeText p s).modes = fs.modes := rfl

@[simp]
theorem FS.statMode_chmod_self (fs : FS) (p : Path) (m : Nat) :
    (fs.chmod p m).statMode p = m := by
  simp [FS.chmod, FS.statMode, lookupPath]

@[simp]
theorem FS.dirs_writeText (fs : FS) (p : Path) (s : String) :
    (fs.writeText p s).dirs = fs.dirs := rfl

@[simp]
theorem FS.dirs_chmod (fs : FS) (p : Path) (m : Nat) :
    (fs.chmod p m).dirs = fs.dirs := rfl

/-! ## Directory-creation lemmas -/

theorem mem_foldl_insertDir_of_mem {q : Path} (l : List Path) {ds : List Path}
    (h : q ∈ ds) : q ∈ l.foldl insertDir ds := by
  induction l generalizing ds with
  | nil => exact h
  | cons a l ih =>
    rw [List.foldl_cons]
    apply ih
    unfold insertDir
    split
    · exact h
    · exact List.mem_cons_of_mem _ h

theorem mem_foldl_insertDir_self {q : Path} {l : List Path} (ds : List Path)
    (h : q ∈ l) : q ∈ l.foldl insertDir ds := by
  induction l generalizing ds with
  | nil => cases h
  | cons a l ih =>
    rw [List.foldl_cons]
    rcases List.mem_cons.mp h with rfl | h'
    · apply mem_foldl_insertDir_of_mem
      unfold insertDir
      split
      · assumption
      · exact List.mem_cons_self _ _
    · exact ih _ h'

theorem foldl_insertDir_of_subset {l ds : List Path} (h : ∀ q ∈ l, q ∈ ds) :
    l.foldl insertDir ds = ds := by
  induction l with
  | nil => rfl
  | cons a l ih =>
    rw [List.foldl_cons]
    have ha : insertDir ds a = ds := by
      unfold insertDir
      rw [if_pos (h a (List.mem_cons_self a l))]
    rw [ha]
    exact ih fun q hq => h q (List.mem_cons_of_mem _ hq)

theorem dirExists_mkdirP_of_isPrefix (fs : FS) {p q : Path} (h : q <+: p) :
    (fs.mkdirP p).dirExists q = true := by
  unfold FS.dirExists FS.mkdirP
  exact decide_eq_true (mem_foldl_insertDir_self fs.dirs ((List.mem_inits q p).mpr h))

theorem mkdirP_idem (fs : FS) (p : Path) : (fs.mkdirP p).mkdirP p = fs.mkdirP p := by
  unfold FS.mkdirP
  have : p.inits.foldl insertDir (p.inits.foldl insertDir fs.dirs) =
      p.inits.foldl insertDir fs.dirs :=
    foldl_insertDir_of_subset fun q hq => mem_foldl_insertDir_self fs.dirs hq
  rw [this]

/-! ## Platform-resolver lemmas -/

theorem binary_name_of_ok {s m ps bn : String}
    (h : get_binary_name s m = .ok (ps, bn)) :
    bn = "gcop-rs" ∨ bn = "gcop-rs.exe" := by
  unfold get_binary_name at h
  by_cases h1 : pyLower m = "x86_64" ∨ pyLower m = "amd64" <;>
    by_cases h2 : pyLower m = "arm64" ∨ pyLower m = "aarch64" <;>
    by_cases h3 : pyLower s = "darwin" <;>
    by_cases h4 : pyLower s = "linux" <;>
    by_cases h5 : pyLower s = "windows" <;>
    simp_all

theorem binary_path_ne_version_file {s m ps bn : String}
    (h : get_binary_name s m = .ok (ps, bn)) (d : Path) :
    d ++ [bn] ≠ d ++ ["version"] := by
  rcases binary_name_of_ok h with h' | h' <;> simp [h']

/-! ## Fetcher unfolding -/

/-- When platform resolution succeeds, `download_binary` is the cache check
followed by the network case split. -/
theorem download_binary_eq_of_ok (sys : Sys) (net : String → NetResult) (fs : FS)
    {ps bn : String} (hname : get_binary_name sys.system sys.machine = .ok (ps, bn)) :
    download_binary sys net fs =
      (if cache_hit (fs.mkdirP (get_binary_path sys))
            (get_binary_path sys ++ [bn]) (get_binary_path sys ++ ["version"]) then
         ⟨.ok (get_binary_path sys ++ [bn]), fs.mkdirP (get_binary_path sys), []⟩
       else
         match net (assetUrl ps) with
         | .interrupt =>
             ⟨.interrupted, fs.mkdirP (get_binary_path sys), [assetUrl ps]⟩
         | .err cause =>
             ⟨.error ("Failed to download binary from " ++ assetUrl ps ++ ": " ++ cause),
              fs.mkdirP (get_binary_path sys), [assetUrl ps]⟩
         | .ok content =>
             let fs1 := (fs.mkdirP (get_binary_path sys)).writeText
                          (get_binary_path sys ++ [bn]) content
             let fs2 := if sys.system ≠ "Windows" then
                          fs1.chmod (get_binary_path sys ++ [bn])
                            (fs1.statMode (get_binary_path sys ++ [bn]) |||
                              (S_IXUSR ||| S_IXGRP ||| S_IXOTH))
                        else fs1
             ⟨.ok (get_binary_path sys ++ [bn]),
              fs2.writeText (get_binary_path sys ++ ["version"]) __version__,
              [assetUrl ps]⟩) := by
  unfold download_binary
  rw [hname]

@[simp]
theorem FS.readText_ite_chmod {c : Prop} [Decidable c] (f : FS) (p : Path) (m : Nat)
    (q : Path) : (if c then f.chmod p m else f).readText q = f.readText q := by
  split <;> rfl

@[simp]
theorem FS.readText_ite_chmod_right {c : Prop} [Decidable c] (f : FS) (p : Path)
    (m : Nat) (q : Path) : (if c then f else f.chmod p m).readText q = f.readText q := by
  split <;> rfl

@[simp]
theorem FS.dirs_ite_chmod {c : Prop} [Decidable c] (f : FS) (p : Path) (m : Nat) :
    (if c then f.chmod p m else f).dirs = f.dirs := by
  split <;> rfl

@[simp]
theorem FS.dirs_ite_chmod_right {c : Prop} [Decidable c] (f : FS) (p : Path) (m : Nat) :
    (if c then f else f.chmod p m).dirs = f.dirs := by
  split <;> rfl

/-- The stored version string is already stripped. -/
theorem pyStrip_version : pyStrip __version__ = __version__ := by decide

/-- Cache-hit branch of `download_binary`. -/
theorem download_binary_hit (sys : Sys) (net : String → NetResult) (fs : FS)
    {ps bn : String} (hname : get_binary_name sys.system sys.machine = .ok (ps, bn))
    (hhit : cache_hit (fs.mkdirP (get_binary_path sys))
        (get_binary_path sys ++ [bn]) (get_binary_path sys ++ ["version"]) = true) :
    download_binary sys net fs =
      ⟨.ok (get_binary_path sys ++ [bn]), fs.mkdirP (get_binary_path sys), []⟩ := by
  rw [download_binary_eq_of_ok sys net fs hname, hhit]
  simp

/-- Cache-miss branch of `download_binary`: the network decides the outcome. -/
theorem download_binary_miss (sys : Sys) (net : String → NetResult) (fs : FS)
    {ps bn : String} (hname : get_binary_name sys.system sys.machine = .ok (ps, bn))
    (hmiss : cache_hit (fs.mkdirP (get_binary_path sys))
        (get_binary_path sys ++ [bn]) (get_binary_path sys ++ ["version"]) = false) :
    download_binary sys net fs =
      (match net (assetUrl ps) with
       | .interrupt =>
           ⟨.interrupted, fs.mkdirP (get_binary_path sys), [assetUrl ps]⟩
       | .err cause =>
           ⟨.error ("Failed to download binary from " ++ assetUrl ps ++ ": " ++ cause),
            fs.mkdirP (get_binary_path sys), [assetUrl ps]⟩
       | .ok content =>
           let fs1 := (fs.mkdirP (get_binary_path sys)).writeText
                        (get_binary_path sys ++ [bn]) content
           let fs2 := if sys.system ≠ "Windows" then
                        fs1.chmod (get_binary_path sys ++ [bn])
                          (fs1.statMode (get_binary_path sys ++ [bn]) |||
                            (S_IXUSR ||| S_IXGRP ||| S_IXOTH))
                      else fs1
           ⟨.ok (get_binary_path sys ++ [bn]),
            fs2.writeText (get_binary_path sys ++ ["version"]) __version__,
            [assetUrl ps]⟩) := by
  rw [download_binary_eq_of_ok sys net fs hname, hmiss]
  simp

/-- Cache-miss branch with a successful transfer, fully explicit. -/
theorem download_binary_miss_ok (sys : Sys) (net : String → NetResult) (fs : FS)
    {ps bn content : String}
    (hname : get_binary_name sys.system sys.machine = .ok (ps, bn))
    (hmiss : cache_hit (fs.mkdirP (get_binary_path sys))
        (get_binary_path sys ++ [bn]) (get_binary_path sys ++ ["version"]) = false)
    (hnet : net (assetUrl ps) = .ok content) :
    download_binary sys net fs =
      ⟨.ok (get_binary_path sys ++ [bn]),
       ((if sys.system ≠ "Windows" then
           ((fs.mkdirP (get_binary_path sys)).writeText
               (get_binary_path sys ++ [bn]) content).chmod
             (get_binary_path sys ++ [bn])
             (((fs.mkdirP (get_binary_path sys)).writeText
                 (get_binary_path sys ++ [bn]) content).statMode
                 (get_binary_path sys ++ [bn]) ||| (S_IXUSR ||| S_IXGRP ||| S_IXOTH))
         else
           (fs.mkdirP (get_binary_path sys)).writeText
             (get_binary_path sys ++ [bn]) content)).writeText
         (get_binary_path sys ++ ["version"]) __version__,
       [assetUrl ps]⟩ := by
  rw [download_binary_miss sys net fs hname hmiss, hnet]

/-- After a successful transfer, the cache condition holds: the binary and the
marker are in place and the marker strips to the expected version. -/
theorem cache_hit_after_success (sys : Sys) (net : String → NetResult) (fs : FS)
    {ps bn content : String}
    (hname : get_binary_name sys.system sys.machine = .ok (ps, bn))
    (hmiss : cache_hit (fs.mkdirP (get_binary_path sys))
        (get_binary_path sys ++ [bn]) (get_binary_path sys ++ ["version"]) = false)
    (hnet : net (assetUrl ps) = .ok content) :
    cache_hit ((download_binary sys net fs).fs.mkdirP (get_binary_path sys))
        (get_binary_path sys ++ [bn]) (get_binary_path sys ++ ["version"]) = true := by
  have hvb : get_binary_path sys ++ ["version"] ≠ get_binary_path sys ++ [bn] :=
    Ne.symm (binary_path_ne_version_file hname (get_binary_path sys))
  rw [download_binary_miss_ok sys net fs hname hmiss hnet]
  simp [cache_hit, FS.fileExists, FS.readText_writeText_ne, hvb, pyStrip_version]

/-- `main` when the fetch succeeded: the child decides the outcome. -/
theorem main_eq_ok (sys : Sys) (net : String → NetResult) (fs : FS)
    (argv : List String) (run : Path → List String → RunOutcome) {p : Path}
    (h : (download_binary sys net fs).ret = .ok p) :
    main sys net fs argv run =
      (match run p (argv.drop 1) with
       | .exited code => ⟨.ret code, [(p, argv.drop 1)], []⟩
       | .keyboardInterrupt => ⟨.ret 130, [(p, argv.drop 1)], []⟩) := by
  unfold main
  rw [h]

/-- `main` when the fetch raised an ordinary exception. -/
theorem main_eq_error (sys : Sys) (net : String → NetResult) (fs : FS)
    (argv : List String) (run : Path → List String → RunOutcome) {msg : String}
    (h : (download_binary sys net fs).ret = .error msg) :
    main sys net fs argv run = ⟨.ret 1, [], ["Error: " ++ msg]⟩ := by
  unfold main
  rw [h]

/-- `main` when the fetch was interrupted: the interrupt escapes uncaught. -/
theorem main_eq_interrupted (sys : Sys) (net : String → NetResult) (fs : FS)
    (argv : List String) (run : Path → List String → RunOutcome)
    (h : (download_binary sys net fs).ret = .interrupted) :
    main sys net fs argv run = ⟨.uncaughtInterrupt, [], []⟩ := by
  unfold main
  rw [h]

/-- The executable-bit mask `S_IXUSR ||| S_IXGRP ||| S_IXOTH` touches only
bits 0, 3 and 6. -/
theorem execMask_testBit_false {i : Nat} (h0 : i ≠ 0) (h3 : i ≠ 3) (h6 : i ≠ 6) :
    (S_IXUSR ||| S_IXGRP ||| S_IXOTH).testBit i = false := by
  have h73 : (S_IXUSR ||| S_IXGRP ||| S_IXOTH) = 73 := by decide
  rw [h73]
  match i with
  | 0 => exact absurd rfl h0
  | 1 => decide
  | 2 => decide
  | 3 => exact absurd rfl h3
  | 4 => decide
  | 5 => decide
  | 6 => exact absurd rfl h6
  | (n + 7) =>
    refine Nat.testBit_eq_false_of_lt (lt_of_lt_of_le (by norm_num : (73 : Nat) < 2 ^ 7) ?_)
    exact Nat.pow_le_pow_right (by norm_num) (by omega)

theorem FS.dirExists_eq_of_dirs_eq {f g : FS} (h : f.dirs = g.dirs) (q : Path) :
    f.dirExists q = g.dirExists q := by
  unfold FS.dirExists
  rw [h]

/-- Whatever the network does, `download_binary` leaves exactly the
directories created by its initial `mkdir(parents=True, exist_ok=True)`. -/
theorem dirs_download_binary (sys : Sys) (net : String → NetResult) (fs : FS)
    {ps bn : String} (hname : get_binary_name sys.system sys.machine = .ok (ps, bn)) :
    (download_binary sys net fs).fs.dirs = (fs.mkdirP (get_binary_path sys)).dirs := by
  rw [download_binary_eq_of_ok sys net fs hname]
  split
  · rfl
  · split
    · rfl
    · rfl
    · simp

/-! ## Claims -/

/-- C1: For every host (OS, architecture) string pair, `get_binary_name`
returns exactly the specified (platformSuffix, executableFileName):
architectures x86_64/amd64 normalize to "amd64" and arm64/aarch64 to "arm64",
any other architecture fails with an unsupported-architecture error; OS
"darwin" yields suffix "macos-arch" with filename "gcop-rs", "linux" yields
"linux-arch" with "gcop-rs", "windows" yields "windows-aarch64.exe" when the
architecture is arm64 and "windows-amd64.exe" otherwise with filename
"gcop-rs.exe", and any other OS fails with an unsupported-operating-system
error; in particular ("Darwin", "aarch64") maps to ("macos-arm64", "gcop-rs")
and ("Windows", "AMD64") maps to ("windows-amd64.exe", "gcop-rs.exe"). -/
theorem c1_platform_resolver (system machine : String) :
    (((pyLower machine = "x86_64" ∨ pyLower machine = "amd64") →
        (pyLower system = "darwin" →
            get_binary_name system machine = .ok ("macos-amd64", "gcop-rs")) ∧
        (pyLower system = "linux" →
            get_binary_name system machine = .ok ("linux-amd64", "gcop-rs")) ∧
        (pyLower system = "windows" →
            get_binary_name system machine = .ok ("windows-amd64.exe", "gcop-rs.exe")) ∧
        (pyLower system ≠ "darwin" → pyLower system ≠ "linux" →
         pyLower system ≠ "windows" →
            get_binary_name system machine =
              .error ("Unsupported operating system: " ++ pyLower system))) ∧
      ((pyLower machine = "arm64" ∨ pyLower machine = "aarch64") →
        (pyLower system = "darwin" →
            get_binary_name system machine = .ok ("macos-arm64", "gcop-rs")) ∧
        (pyLower system = "linux" →
            get_binary_name system machine = .ok ("linux-arm64", "gcop-rs")) ∧
        (pyLower system = "windows" →
            get_binary_name system machine = .ok ("windows-aarch64.exe", "gcop-rs.exe")) ∧
        (pyLower system ≠ "darwin" → pyLower system ≠ "linux" →
         pyLower system ≠ "windows" →
            get_binary_name system machine =
              .error ("Unsupported operating system: " ++ pyLower system))) ∧
      (pyLower machine ≠ "x86_64" → pyLower machine ≠ "amd64" →
       pyLower machine ≠ "arm64" → pyLower machine ≠ "aarch64" →
          get_binary_name system machine =
            .error ("Unsupported architecture: " ++ pyLower machine))) ∧
    get_binary_name "Darwin" "aarch64" = .ok ("macos-arm64", "gcop-rs") ∧
    get_binary_name "Windows" "AMD64" = .ok ("windows-amd64.exe", "gcop-rs.exe") := by
  refine ⟨⟨?_, ?_, ?_⟩, rfl, rfl⟩
  · intro hm
    refine ⟨fun hs => ?_, fun hs => ?_, fun hs => ?_, fun h1 h2 h3 => ?_⟩ <;>
      unfold get_binary_name <;>
      rcases hm with hm | hm <;>
      simp [hm, *]
  · intro hm
    refine ⟨fun hs => ?_, fun hs => ?_, fun hs => ?_, fun h1 h2 h3 => ?_⟩ <;>
      unfold get_binary_name <;>
      rcases hm with hm | hm <;>
      simp [hm, *]
  · intro h1 h2 h3 h4
    unfold get_binary_name
    simp [h1, h2, h3, h4]

/-- Witness for C1 at concrete hosts: a normalized x86 Linux pair and an
unsupported architecture. -/
theorem c1_platform_resolver_witness :
    get_binary_name "Linux" "X86_64" = .ok ("linux-amd64", "gcop-rs") ∧
    get_binary_name "FreeBSD" "riscv64" = .error ("Unsupported architecture: riscv64") := by
  constructor
  · exact ((c1_platform_resolver "Linux" "X86_64").1.1 (Or.inl (by decide))).2.1 (by decide)
  · exact (c1_platform_resolver "FreeBSD" "riscv64").1.2.2
      (by decide) (by decide) (by decide) (by decide)

/-- C2: If both the cached binary file and the version-marker file exist and
the marker's stored value (trimmed) equals the expected version string,
`download_binary` returns the existing binary path and performs no network
access; consequently, calling the ensure-binary step twice in succession with
an unchanged expected version performs exactly one network transfer, the
second call being a cache hit. -/
theorem c2_ensure_binary_cache_hit (sys : Sys) (net : String → NetResult) (fs : FS)
    (ps bn content : String)
    (hname : get_binary_name sys.system sys.machine = .ok (ps, bn)) :
    ((fs.fileExists (get_binary_path sys ++ [bn]) = true →
      fs.fileExists (get_binary_path sys ++ ["version"]) = true →
      pyStrip ((fs.readText (get_binary_path sys ++ ["version"])).getD "") = __version__ →
        (download_binary sys net fs).ret = .ok (get_binary_path sys ++ [bn]) ∧
        (download_binary sys net fs).transfers = [])) ∧
    (fs.fileExists (get_binary_path sys ++ [bn]) = false →
     net (assetUrl ps) = .ok content →
        (download_binary sys net fs).transfers = [assetUrl ps] ∧
        (download_binary sys net fs).ret = .ok (get_binary_path sys ++ [bn]) ∧
        (download_binary sys net (download_binary sys net fs).fs).transfers = [] ∧
        (download_binary sys net (download_binary sys net fs).fs).ret
          = .ok (get_binary_path sys ++ [bn])) := by
  constructor
  · intro hbin hver htrim
    have hhit : cache_hit (fs.mkdirP (get_binary_path sys))
        (get_binary_path sys ++ [bn]) (get_binary_path sys ++ ["version"]) = true := by
      simp [cache_hit, hbin, hver, htrim]
    rw [download_binary_hit sys net fs hname hhit]
    exact ⟨rfl, rfl⟩
  · intro hmiss0 hnet
    have hmiss : cache_hit (fs.mkdirP (get_binary_path sys))
        (get_binary_path sys ++ [bn]) (get_binary_path sys ++ ["version"]) = false := by
      simp [cache_hit, hmiss0]
    have h1 := download_binary_miss_ok sys net fs hname hmiss hnet
    have hhit2 := cache_hit_after_success sys net fs hname hmiss hnet
    have h2 := download_binary_hit sys net (download_binary sys net fs).fs hname hhit2
    exact ⟨by rw [h1], by rw [h1], by rw [h2], by rw [h2]⟩

/-- Witness for C2: a Linux host with an empty cache; the first call transfers
once, the second call is a cache hit returning the same path. -/
theorem c2_ensure_binary_cache_hit_witness :
    (download_binary ⟨"Linux", "x86_64", fun _ => none, ["home", "u"]⟩
        (fun _ => .ok "BIN") ⟨[], [], []⟩).transfers = [assetUrl "linux-amd64"] ∧
    (download_binary ⟨"Linux", "x86_64", fun _ => none, ["home", "u"]⟩
        (fun _ => .ok "BIN") ⟨[], [], []⟩).ret
      = .ok ["home", "u", ".cache", "gcop-rs", "bin", "gcop-rs"] ∧
    (download_binary ⟨"Linux", "x86_64", fun _ => none, ["home", "u"]⟩
        (fun _ => .ok "BIN")
        (download_binary ⟨"Linux", "x86_64", fun _ => none, ["home", "u"]⟩
          (fun _ => .ok "BIN") ⟨[], [], []⟩).fs).transfers = [] ∧
    (download_binary ⟨"Linux", "x86_64", fun _ => none, ["home", "u"]⟩
        (fun _ => .ok "BIN")
        (download_binary ⟨"Linux", "x86_64", fun _ => none, ["home", "u"]⟩
          (fun _ => .ok "BIN") ⟨[], [], []⟩).fs).ret
      = .ok ["home", "u", ".cache", "gcop-rs", "bin", "gcop-rs"] :=
  (c2_ensure_binary_cache_hit ⟨"Linux", "x86_64", fun _ => none, ["home", "u"]⟩
      (fun _ => .ok "BIN") ⟨[], [], []⟩ "linux-amd64" "gcop-rs" "BIN" rfl).2 rfl rfl

/-- C3: If the version-marker file holds a string different from the expected
version, `download_binary` performs a network transfer to the interpolated
asset URL even though the binary file already exists, overwriting the prior
binary, and afterwards overwrites the version-marker file with the expected
version string. -/
theorem c3_version_bump_refetch (sys : Sys) (net : String → NetResult) (fs : FS)
    (ps bn content : String)
    (hname : get_binary_name sys.system sys.machine = .ok (ps, bn))
    (hbin : fs.fileExists (get_binary_path sys ++ [bn]) = true)
    (hver : fs.fileExists (get_binary_path sys ++ ["version"]) = true)
    (hneq : pyStrip ((fs.readText (get_binary_path sys ++ ["version"])).getD "")
      ≠ __version__)
    (hnet : net (assetUrl ps) = .ok content) :
    (download_binary sys net fs).transfers = [assetUrl ps] ∧
    (download_binary sys net fs).ret = .ok (get_binary_path sys ++ [bn]) ∧
    (download_binary sys net fs).fs.readText (get_binary_path sys ++ [bn])
      = some content ∧
    (download_binary sys net fs).fs.readText (get_binary_path sys ++ ["version"])
      = some __version__ := by
  have hvb : get_binary_path sys ++ ["version"] ≠ get_binary_path sys ++ [bn] :=
    Ne.symm (binary_path_ne_version_file hname (get_binary_path sys))
  have hmiss : cache_hit (fs.mkdirP (get_binary_path sys))
      (get_binary_path sys ++ [bn]) (get_binary_path sys ++ ["version"]) = false := by
    simp [cache_hit, hbin, hver, beq_eq_false_iff_ne]
    exact hneq
  have h1 := download_binary_miss_ok sys net fs hname hmiss hnet
  refine ⟨by rw [h1], by rw [h1], ?_, ?_⟩
  · rw [h1]
    simp [FS.readText_writeText_ne, hvb]
  · rw [h1]
    simp

/-- Witness for C3: a Linux host whose cache holds a stale binary and the
marker "0.3.0"; the fetch overwrites both files. -/
theorem c3_version_bump_refetch_witness :
    (download_binary ⟨"Linux", "x86_64", fun _ => none, ["home", "u"]⟩
        (fun _ => .ok "NEWBIN")
        ⟨[], [(["home", "u", ".cache", "gcop-rs", "bin", "gcop-rs"], "OLDBIN"),
              (["home", "u", ".cache", "gcop-rs", "bin", "version"], "0.3.0")], []⟩).transfers
      = [assetUrl "linux-amd64"] ∧
    (download_binary ⟨"Linux", "x86_64", fun _ => none, ["home", "u"]⟩
        (fun _ => .ok "NEWBIN")
        ⟨[], [(["home", "u", ".cache", "gcop-rs", "bin", "gcop-rs"], "OLDBIN"),
              (["home", "u", ".cache", "gcop-rs", "bin", "version"], "0.3.0")], []⟩).fs.readText
        ["home", "u", ".cache", "gcop-rs", "bin", "gcop-rs"] = some "NEWBIN" ∧
    (download_binary ⟨"Linux", "x86_64", fun _ => none, ["home", "u"]⟩
        (fun _ => .ok "NEWBIN")
        ⟨[], [(["home", "u", ".cache", "gcop-rs", "bin", "gcop-rs"], "OLDBIN"),
              (["home", "u", ".cache", "gcop-rs", "bin", "version"], "0.3.0")], []⟩).fs.readText
        ["home", "u", ".cache", "gcop-rs", "bin", "version"] = some "0.4.2" := by
  have h := c3_version_bump_refetch ⟨"Linux", "x86_64", fun _ => none, ["home", "u"]⟩
    (fun _ => .ok "NEWBIN")
    ⟨[], [(["home", "u", ".cache", "gcop-rs", "bin", "gcop-rs"], "OLDBIN"),
          (["home", "u", ".cache", "gcop-rs", "bin", "version"], "0.3.0")], []⟩
    "linux-amd64" "gcop-rs" "NEWBIN" rfl rfl rfl (by decide) rfl
  exact ⟨h.1, h.2.2.1, h.2.2.2⟩

/-- C4: `main` runs the resolved binary with exactly the arguments the
wrapper itself received, excluding the wrapper's own invocation name,
forwarded verbatim and in order, and terminates with the same exit code the
child process produced. -/
theorem c4_dispatch_passthrough (sys : Sys) (net : String → NetResult) (fs : FS)
    (argv : List String) (run : Path → List String → RunOutcome) (p : Path)
    (code : Int)
    (hdl : (download_binary sys net fs).ret = .ok p)
    (hrun : run p (argv.drop 1) = .exited code) :
    main sys net fs argv run = ⟨.ret code, [(p, argv.drop 1)], []⟩ := by
  rw [main_eq_ok sys net fs argv run hdl, hrun]

/-- Witness for C4: a warm cache and a stub child exiting with code 7; the
wrapper's exit code is 7 and the child receives the forwarded arguments. -/
theorem c4_dispatch_passthrough_witness :
    main ⟨"Linux", "x86_64", fun _ => none, ["home", "u"]⟩ (fun _ => .err "offline")
        ⟨[], [(["home", "u", ".cache", "gcop-rs", "bin", "gcop-rs"], "BIN"),
              (["home", "u", ".cache", "gcop-rs", "bin", "version"], "0.4.2")], []⟩
        ["gcop-rs", "commit", "--amend"] (fun _ _ => .exited 7)
      = ⟨.ret 7, [(["home", "u", ".cache", "gcop-rs", "bin", "gcop-rs"],
          ["commit", "--amend"])], []⟩ :=
  c4_dispatch_passthrough ⟨"Linux", "x86_64", fun _ => none, ["home", "u"]⟩
    (fun _ => .err "offline")
    ⟨[], [(["home", "u", ".cache", "gcop-rs", "bin", "gcop-rs"], "BIN"),
          (["home", "u", ".cache", "gcop-rs", "bin", "version"], "0.4.2")], []⟩
    ["gcop-rs", "commit", "--amend"] (fun _ _ => .exited 7)
    ["home", "u", ".cache", "gcop-rs", "bin", "gcop-rs"] 7 rfl rfl

/-- C5: If the child run is interrupted by an operator-initiated interrupt
signal, `main` terminates with status 130 rather than propagating the child's
exit code, regardless of what the child reported. -/
theorem c5_interrupt_exit_130 (sys : Sys) (net : String → NetResult) (fs : FS)
    (argv : List String) (run : Path → List String → RunOutcome) (p : Path)
    (hdl : (download_binary sys net fs).ret = .ok p)
    (hrun : run p (argv.drop 1) = .keyboardInterrupt) :
    main sys net fs argv run = ⟨.ret 130, [(p, argv.drop 1)], []⟩ := by
  rw [main_eq_ok sys net fs argv run hdl, hrun]

/-- Witness for C5: a warm cache and a child run interrupted by the operator;
the wrapper's exit code is 130. -/
theorem c5_interrupt_exit_130_witness :
    main ⟨"Linux", "x86_64", fun _ => none, ["home", "u"]⟩ (fun _ => .err "offline")
        ⟨[], [(["home", "u", ".cache", "gcop-rs", "bin", "gcop-rs"], "BIN"),
              (["home", "u", ".cache", "gcop-rs", "bin", "version"], "0.4.2")], []⟩
        ["gcop-rs", "review"] (fun _ _ => .keyboardInterrupt)
      = ⟨.ret 130, [(["home", "u", ".cache", "gcop-rs", "bin", "gcop-rs"],
          ["review"])], []⟩ :=
  c5_interrupt_exit_130 ⟨"Linux", "x86_64", fun _ => none, ["home", "u"]⟩
    (fun _ => .err "offline")
    ⟨[], [(["home", "u", ".cache", "gcop-rs", "bin", "gcop-rs"], "BIN"),
          (["home", "u", ".cache", "gcop-rs", "bin", "version"], "0.4.2")], []⟩
    ["gcop-rs", "review"] (fun _ _ => .keyboardInterrupt)
    ["home", "u", ".cache", "gcop-rs", "bin", "gcop-rs"] rfl rfl

/-- C6: If the Fetcher fails — in particular a transfer failure, which fails
with a download error carrying the URL and underlying cause and is not
retried — `main` reports the error to the diagnostic stream and terminates
with status 1 before any child process is started. -/
theorem c6_fetch_failure_exit_1 (sys : Sys) (net : String → NetResult) (fs : FS)
    (argv : List String) (run : Path → List String → RunOutcome)
    (ps bn cause : String)
    (hname : get_binary_name sys.system sys.machine = .ok (ps, bn))
    (hmiss : cache_hit (fs.mkdirP (get_binary_path sys))
        (get_binary_path sys ++ [bn]) (get_binary_path sys ++ ["version"]) = false)
    (hnet : net (assetUrl ps) = .err cause) :
    (download_binary sys net fs).ret =
        .error ("Failed to download binary from " ++ assetUrl ps ++ ": " ++ cause) ∧
    (download_binary sys net fs).transfers = [assetUrl ps] ∧
    main sys net fs argv run =
      ⟨.ret 1, [],
       ["Error: " ++ ("Failed to download binary from " ++ assetUrl ps ++ ": " ++ cause)]⟩ ∧
    (∀ msg, (download_binary sys net fs).ret = .error msg →
        main sys net fs argv run = ⟨.ret 1, [], ["Error: " ++ msg]⟩) := by
  have hret : (download_binary sys net fs).ret =
      .error ("Failed to download binary from " ++ assetUrl ps ++ ": " ++ cause) := by
    rw [download_binary_miss sys net fs hname hmiss, hnet]
  refine ⟨hret, ?_, main_eq_error sys net fs argv run hret, ?_⟩
  · rw [download_binary_miss sys net fs hname hmiss, hnet]
  · intro msg hmsg
    exact main_eq_error sys net fs argv run hmsg

/-- Witness for C6: an empty cache and a refused connection; the wrapper
reports the download error, exits with status 1, and starts no child. -/
theorem c6_fetch_failure_exit_1_witness :
    main ⟨"Linux", "x86_64", fun _ => none, ["home", "u"]⟩
        (fun _ => .err "connection refused") ⟨[], [], []⟩ ["gcop-rs", "commit"]
        (fun _ _ => .exited 0)
      = ⟨.ret 1, [],
         ["Error: " ++ ("Failed to download binary from " ++ assetUrl "linux-amd64"
            ++ ": " ++ "connection refused")]⟩ :=
  (c6_fetch_failure_exit_1 ⟨"Linux", "x86_64", fun _ => none, ["home", "u"]⟩
    (fun _ => .err "connection refused") ⟨[], [], []⟩ ["gcop-rs", "commit"]
    (fun _ _ => .exited 0) "linux-amd64" "gcop-rs" "connection refused"
    rfl rfl rfl).2.2.1

/-- C9: An operator-initiated interrupt raised during the download phase,
before the child process is started, is handled by neither of the wrapper's
handlers: `main` neither returns 1 nor 130, starts no child, prints nothing,
and the interrupt propagates out of `main` uncaught. -/
theorem c9_interrupt_during_fetch_uncaught (sys : Sys) (net : String → NetResult)
    (fs : FS) (argv : List String) (run : Path → List String → RunOutcome)
    (ps bn : String)
    (hname : get_binary_name sys.system sys.machine = .ok (ps, bn))
    (hmiss : cache_hit (fs.mkdirP (get_binary_path sys))
        (get_binary_path sys ++ [bn]) (get_binary_path sys ++ ["version"]) = false)
    (hnet : net (assetUrl ps) = .interrupt) :
    main sys net fs argv run = ⟨.uncaughtInterrupt, [], []⟩ := by
  have hret : (download_binary sys net fs).ret = .interrupted := by
    rw [download_binary_miss sys net fs hname hmiss, hnet]
  exact main_eq_interrupted sys net fs argv run hret

/-- Witness for C9: an empty cache and an interrupt raised during the
transfer; `main` ends in the uncaught-interrupt outcome with no child run. -/
theorem c9_interrupt_during_fetch_uncaught_witness :
    main ⟨"Linux", "x86_64", fun _ => none, ["home", "u"]⟩ (fun _ => .interrupt)
        ⟨[], [], []⟩ ["gcop-rs", "commit"] (fun _ _ => .exited 0)
      = ⟨.uncaughtInterrupt, [], []⟩ :=
  c9_interrupt_during_fetch_uncaught ⟨"Linux", "x86_64", fun _ => none, ["home", "u"]⟩
    (fun _ => .interrupt) ⟨[], [], []⟩ ["gcop-rs", "commit"] (fun _ _ => .exited 0)
    "linux-amd64" "gcop-rs" rfl rfl rfl

/-- C8: On non-Windows targets, after a successful download `download_binary`
sets the owner, group, and other executable permission bits on the downloaded
file while leaving every other permission bit of the file's existing mode
unchanged; on Windows the file mode is not modified. -/
theorem c8_exec_permission_bits (sys : Sys) (net : String → NetResult) (fs : FS)
    (ps bn content : String)
    (hname : get_binary_name sys.system sys.machine = .ok (ps, bn))
    (hmiss : cache_hit (fs.mkdirP (get_binary_path sys))
        (get_binary_path sys ++ [bn]) (get_binary_path sys ++ ["version"]) = false)
    (hnet : net (assetUrl ps) = .ok content) :
    (sys.system ≠ "Windows" →
      (download_binary sys net fs).fs.statMode (get_binary_path sys ++ [bn]) =
        fs.statMode (get_binary_path sys ++ [bn]) ||| (S_IXUSR ||| S_IXGRP ||| S_IXOTH) ∧
      (∀ i, i ≠ 0 → i ≠ 3 → i ≠ 6 →
        ((download_binary sys net fs).fs.statMode (get_binary_path sys ++ [bn])).testBit i
          = (fs.statMode (get_binary_path sys ++ [bn])).testBit i) ∧
      ((download_binary sys net fs).fs.statMode (get_binary_path sys ++ [bn])).testBit 0
        = true ∧
      ((download_binary sys net fs).fs.statMode (get_binary_path sys ++ [bn])).testBit 3
        = true ∧
      ((download_binary sys net fs).fs.statMode (get_binary_path sys ++ [bn])).testBit 6
        = true) ∧
    (sys.system = "Windows" → (download_binary sys net fs).fs.modes = fs.modes) := by
  have h1 := download_binary_miss_ok sys net fs hname hmiss hnet
  constructor
  · intro hW
    have hmode : (download_binary sys net fs).fs.statMode (get_binary_path sys ++ [bn])
        = fs.statMode (get_binary_path sys ++ [bn]) ||| (S_IXUSR ||| S_IXGRP ||| S_IXOTH) := by
      rw [h1]
      simp [hW]
    refine ⟨hmode, ?_, ?_, ?_, ?_⟩
    · intro i h0 h3 h6
      rw [hmode, Nat.testBit_lor, execMask_testBit_false h0 h3 h6, Bool.or_false]
    · rw [hmode, Nat.testBit_lor,
        show (S_IXUSR ||| S_IXGRP ||| S_IXOTH).testBit 0 = true from by decide,
        Bool.or_true]
    · rw [hmode, Nat.testBit_lor,
        show (S_IXUSR ||| S_IXGRP ||| S_IXOTH).testBit 3 = true from by decide,
        Bool.or_true]
    · rw [hmode, Nat.testBit_lor,
        show (S_IXUSR ||| S_IXGRP ||| S_IXOTH).testBit 6 = true from by decide,
        Bool.or_true]
  · intro hWin
    rw [h1]
    simp [hWin]

/-- Witness for C8: a Linux host whose cached stale binary has mode 0o644
(420); after the re-fetch the mode is 0o755 (493): executable bits added,
all others preserved; and on a Windows host the modes are untouched. -/
theorem c8_exec_permission_bits_witness :
    (download_binary ⟨"Linux", "x86_64", fun _ => none, ["home", "u"]⟩
        (fun _ => .ok "BIN")
        ⟨[], [], [(["home", "u", ".cache", "gcop-rs", "bin", "gcop-rs"], 420)]⟩).fs.statMode
        ["home", "u", ".cache", "gcop-rs", "bin", "gcop-rs"] = 493 ∧
    ((download_binary ⟨"Linux", "x86_64", fun _ => none, ["home", "u"]⟩
        (fun _ => .ok "BIN")
        ⟨[], [], [(["home", "u", ".cache", "gcop-rs", "bin", "gcop-rs"], 420)]⟩).fs.statMode
        ["home", "u", ".cache", "gcop-rs", "bin", "gcop-rs"]).testBit 1
      = ((420 : Nat).testBit 1) := by
  have h := c8_exec_permission_bits ⟨"Linux", "x86_64", fun _ => none, ["home", "u"]⟩
    (fun _ => .ok "BIN")
    ⟨[], [], [(["home", "u", ".cache", "gcop-rs", "bin", "gcop-rs"], 420)]⟩
    "linux-amd64" "gcop-rs" "BIN" rfl rfl rfl
  have hne : ("Linux" : String) ≠ "Windows" := by decide
  refine ⟨(h.1 hne).1.trans (by decide), ?_⟩
  exact (h.1 hne).2.1 1 (by decide) (by decide) (by decide)

/-- C7 counterexample: `get_binary_path` itself performs no filesystem side
effect.  On a Linux host with an empty filesystem, running the Cache Locator
(filesystem-passing reading of the source body, which contains no filesystem
operation) leaves the cache directory absent, contrary to the claim that
`get_binary_path` ensures as a side effect that the directory exists. -/
theorem c7_cache_locator_counterexample :
    (get_binary_path_st ⟨"Linux", "x86_64", fun _ => none, ["home", "u"]⟩
        ⟨[], [], []⟩).2.dirExists
      (get_binary_path ⟨"Linux", "x86_64", fun _ => none, ["home", "u"]⟩) = false := rfl

/-- C7, amended: `get_binary_path` returns the platform-conventional cache
directory (the user's Library/Caches root on macOS, an XDG-style cache root
overridable by the XDG_CACHE_HOME environment variable on Linux/other Unix;
the Windows root is settled by C10) extended by the fixed `gcop-rs/bin`
subpath, and it is pure — it performs no filesystem side effect; the
directory is instead created (create-if-missing, including parents,
idempotently) by `download_binary` immediately after computing the path, so
after any run of the ensure-binary step that resolves the platform the
directory exists. -/
theorem c7_cache_locator_amended (sys : Sys) (fs : FS) :
    get_binary_path_st sys fs = (get_binary_path sys, fs) ∧
    (sys.system = "Darwin" →
        get_binary_path sys = sys.home ++ ["Library", "Caches", "gcop-rs", "bin"]) ∧
    (sys.system ≠ "Windows" → sys.system ≠ "Darwin" →
        (∀ p, sys.env "XDG_CACHE_HOME" = some p →
            get_binary_path sys = p ++ ["gcop-rs", "bin"]) ∧
        (sys.env "XDG_CACHE_HOME" = none →
            get_binary_path sys = sys.home ++ [".cache", "gcop-rs", "bin"])) ∧
    (fs.mkdirP (get_binary_path sys)).mkdirP (get_binary_path sys)
      = fs.mkdirP (get_binary_path sys) ∧
    (∀ q, q <+: get_binary_path sys →
        (fs.mkdirP (get_binary_path sys)).dirExists q = true) ∧
    (∀ net ps bn, get_binary_name sys.system sys.machine = .ok (ps, bn) →
        (download_binary sys net fs).fs.dirExists (get_binary_path sys) = true) := by
  refine ⟨rfl, ?_, ?_, mkdirP_idem fs _, ?_, ?_⟩
  · intro h
    unfold get_binary_path
    simp [h]
  · intro hW hD
    constructor
    · intro p hp
      unfold get_binary_path
      simp [hW, hD, hp]
    · intro henv
      unfold get_binary_path
      simp [hW, hD, henv]
  · intro q hq
    exact dirExists_mkdirP_of_isPrefix fs hq
  · intro net ps bn hname
    rw [FS.dirExists_eq_of_dirs_eq (dirs_download_binary sys net fs hname)
      (get_binary_path sys)]
    exact dirExists_mkdirP_of_isPrefix fs ⟨[], List.append_nil _⟩

/-- Witness for C7: a macOS host maps to `~/Library/Caches/gcop-rs/bin`, a
Linux host with `XDG_CACHE_HOME` set maps under it, and a successful
ensure-binary run leaves the cache directory in existence. -/
theorem c7_cache_locator_amended_witness :
    get_binary_path ⟨"Darwin", "arm64", fun _ => none, ["Users", "u"]⟩
      = ["Users", "u", "Library", "Caches", "gcop-rs", "bin"] ∧
    get_binary_path ⟨"Linux", "x86_64",
        fun v => if v = "XDG_CACHE_HOME" then some ["tmp", "xdg"] else none,
        ["home", "u"]⟩
      = ["tmp", "xdg", "gcop-rs", "bin"] ∧
    (download_binary ⟨"Darwin", "arm64", fun _ => none, ["Users", "u"]⟩
        (fun _ => .ok "BIN") ⟨[], [], []⟩).fs.dirExists
      ["Users", "u", "Library", "Caches", "gcop-rs", "bin"] = true := by
  refine ⟨?_, ?_, ?_⟩
  · exact (c7_cache_locator_amended
      ⟨"Darwin", "arm64", fun _ => none, ["Users", "u"]⟩ ⟨[], [], []⟩).2.1 rfl
  · exact ((c7_cache_locator_amended
      ⟨"Linux", "x86_64",
        fun v => if v = "XDG_CACHE_HOME" then some ["tmp", "xdg"] else none,
        ["home", "u"]⟩ ⟨[], [], []⟩).2.2.1 (by decide) (by decide)).1
      ["tmp", "xdg"] rfl
  · exact (c7_cache_locator_amended
      ⟨"Darwin", "arm64", fun _ => none, ["Users", "u"]⟩
      ⟨[], [], []⟩).2.2.2.2.2 (fun _ => .ok "BIN") "macos-arm64" "gcop-rs" rfl

/-- C10: On Windows, the cache root consulted by `get_binary_path` is taken
from the LOCALAPPDATA environment variable when it is set, falling back to
the user's home directory joined with AppData/Local when it is unset. -/
theorem c10_windows_localappdata (sys : Sys) (p : Path) :
    (sys.system = "Windows" → sys.env "LOCALAPPDATA" = some p →
        get_binary_path sys = p ++ ["gcop-rs", "bin"]) ∧
    (sys.system = "Windows" → sys.env "LOCALAPPDATA" = none →
        get_binary_path sys = sys.home ++ ["AppData", "Local", "gcop-rs", "bin"]) := by
  constructor <;> intro hW henv <;> unfold get_binary_path <;> simp [hW, henv]

/-- Witness for C10: with LOCALAPPDATA set the root is taken from it; with it
unset the root falls back to `home/AppData/Local`. -/
theorem c10_windows_localappdata_witness :
    get_binary_path ⟨"Windows", "AMD64",
        fun v => if v = "LOCALAPPDATA" then some ["D", "AppDataLocal"] else none,
        ["C", "Users", "u"]⟩
      = ["D", "AppDataLocal", "gcop-rs", "bin"] ∧
    get_binary_path ⟨"Windows", "AMD64", fun _ => none, ["C", "Users", "u"]⟩
      = ["C", "Users", "u", "AppData", "Local", "gcop-rs", "bin"] := by
  constructor
  · exact (c10_windows_localappdata ⟨"Windows", "AMD64",
      fun v => if v = "LOCALAPPDATA" then some ["D", "AppDataLocal"] else none,
      ["C", "Users", "u"]⟩ ["D", "AppDataLocal"]).1 rfl rfl
  · exact (c10_windows_localappdata ⟨"Windows", "AMD64", fun _ => none,
      ["C", "Users", "u"]⟩ []).2 rfl rfl

end GcopRs
